import Mathlib

/-!
Verification development for the AWS_Architect cost-estimation engine.

The definitions below are a shallow embedding of the TypeScript source:
* `calculateAWSCosts` and `generateCostOptimizationRecommendations` from the
  pricing service (the Bedrock variant, the one cited by the claims),
* the head of the `getServiceConfiguration` rule chain from the
  sizing-adjustment component,
* `generateDocumentContent` (retry/backoff) and the per-document batch loop
  of the document-generation route.

JavaScript numbers are modelled as exact rationals (`ℚ`); a second model
(`JsNum`) adds NaN and the infinities for the dynamic-semantics questions
about malformed (missing / non-numeric) `count` inputs.
-/

/-- Character-list implementation of `String.toUpper` (`String.map
Char.toUpper` in the runtime); stated over `String.data` so that concrete
instances reduce inside the kernel. -/
def strToUpper (s : String) : String := ⟨s.data.map Char.toUpper⟩

/-- Character-list implementation of `String.toLowerCase`. -/
def strToLower (s : String) : String := ⟨s.data.map Char.toLower⟩

/-- Whether `pat` occurs as a contiguous run inside `s`. -/
def listInfixOf : List Char → List Char → Bool
  | pat, [] => pat.isEmpty
  | pat, c :: rest => pat.isPrefixOf (c :: rest) || listInfixOf pat rest

/-- JavaScript `s.includes(pat)`: substring containment. -/
def containsSubstr (s pat : String) : Bool := listInfixOf pat.data s.data

/-- A service identified by the architecture analysis, as consumed by
`calculateAWSCosts` (interface `ArchitectureAnalysisResult.services` element).
`count` is a number per that interface; optional fields are `Option`. -/
structure AWSService where
  name : String
  type : String
  count : ℚ
  instance_type : Option String
  storage_size : Option ℚ
  bandwidth : Option ℚ
deriving DecidableEq, Repr

/-- Result of the vision analysis, as consumed by the cost calculator. -/
structure ArchitectureAnalysisResult where
  services : List AWSService
  architecture_patterns : List String
  recommendations : List String
  confidence : ℚ
deriving Repr

/-- One row of the cost breakdown.  The source also carries a display-only
`resource` string (text interpolation of count and instance type); no claim
depends on it and string formatting of numbers is not modelled, so the field
is omitted here. -/
structure LineItem where
  service : String
  quantity : ℚ
  unit_cost : ℚ
  total_cost : ℚ
deriving DecidableEq, Repr

/-- The `CostBreakdown` record produced by `calculateAWSCosts`. -/
structure CostBreakdown where
  compute : ℚ
  storage : ℚ
  network : ℚ
  database : ℚ
  total : ℚ
  details : List LineItem
deriving DecidableEq, Repr

/-- `AWS_PRICING.EC2[instanceType]?.monthly`: the static EC2 monthly-rate
table of the pricing service. -/
def ec2Monthly : String → Option ℚ
  | "t3.micro" => some 7.50
  | "t3.small" => some 15.18
  | "t3.medium" => some 30.37
  | "t3.large" => some 60.74
  | "t3.xlarge" => some 121.49
  | "m5.large" => some 70.08
  | "m5.xlarge" => some 140.16
  | "c5.large" => some 62.05
  | "r5.large" => some 91.98
  | _ => none

/-- `AWS_PRICING.RDS[instanceType]?.monthly`. -/
def rdsMonthly : String → Option ℚ
  | "db.t3.micro" => some 12.41
  | "db.t3.small" => some 24.82
  | "db.t3.medium" => some 49.64
  | "db.m5.large" => some 140.16
  | "db.r5.large" => some 175.20
  | _ => none

/-- `AWS_PRICING.ElastiCache[instanceType]?.monthly`. -/
def elastiCacheMonthly : String → Option ℚ
  | "cache.t3.micro" => some 12.41
  | "cache.t3.small" => some 24.82
  | _ => none

/-- `AWS_PRICING.S3.standard.per_gb`. -/
def s3StandardPerGb : ℚ := 0.023

/-- `AWS_PRICING.EBS.gp3.per_gb`. -/
def ebsGp3PerGb : ℚ := 0.08

/-- `AWS_PRICING.ALB.monthly`. -/
def albMonthly : ℚ := 16.20

/-- `AWS_PRICING.ALB.lcu_hourly` (Load Balancer Capacity Unit). -/
def albLcuHourly : ℚ := 0.008

/-- `AWS_PRICING.WAF.monthly_base`. -/
def wafMonthlyBase : ℚ := 5.00

/-- `AWS_PRICING.WAF.per_million_requests`. -/
def wafPerMillionRequests : ℚ := 1.00

/-- `AWS_PRICING.NAT_Gateway.monthly`. -/
def natGatewayMonthly : ℚ := 32.40

/-- `AWS_PRICING.NAT_Gateway.data_processing_per_gb`. -/
def natDataProcessingPerGb : ℚ := 0.045

/-- `AWS_PRICING.CloudFront.monthly_base`. -/
def cloudFrontMonthlyBase : ℚ := 0

/-- `AWS_PRICING.CloudFront.data_transfer_per_gb`. -/
def cloudFrontDataTransferPerGb : ℚ := 0.085

/-- `AWS_PRICING.CloudWatch.basic_monitoring`. -/
def cloudWatchBasicMonitoring : ℚ := 3.50

/-- `AWS_PRICING.CloudTrail.management_events`. -/
def cloudTrailManagementEvents : ℚ := 2.00

/-- `AWS_PRICING.SNS.per_1000_notifications`. -/
def snsPer1000Notifications : ℚ := 0.50

/-- `AWS_PRICING.ECS.ec2_launch_type` (zero: no extra charge on EC2 launch). -/
def ecsEc2LaunchType : ℚ := 0

/-- JavaScript `x || d` on an optional number: `undefined` and `0` are falsy
and select the default. -/
def jsOr (o : Option ℚ) (d : ℚ) : ℚ :=
  match o with
  | none => d
  | some q => if q = 0 then d else q

/-- JavaScript `x || d` on an optional string: `undefined` and the empty
string are falsy and select the default. -/
def jsOrStr (o : Option String) (d : String) : String :=
  match o with
  | none => d
  | some s => if s = "" then d else s

/-- JavaScript truthiness of an optional number (`if (service.storage_size)`):
`undefined` and `0` are falsy, every other number is truthy. -/
def jsTruthy (o : Option ℚ) : Bool :=
  decide (o.getD 0 ≠ 0)

/-- The literal tags recognised by the `switch (service.name.toUpperCase())`
of `calculateAWSCosts`; every other name takes the default branch. -/
def recognizedServiceTags : List String :=
  ["EC2", "RDS", "S3", "ALB", "APPLICATION LOAD BALANCER", "CLOUDFRONT",
   "WAF", "AWS WAF", "ECS", "ELASTIC CONTAINER SERVICE", "ELASTICACHE",
   "CLOUDWATCH", "CLOUDTRAIL", "SNS", "SIMPLE NOTIFICATION SERVICE",
   "NAT GATEWAY"]

/-- Body of the `for (const service of analysisResult.services)` loop of
`calculateAWSCosts`: dispatch one service through the pricing switch,
accumulating bucket totals and appending line items.  The truthiness test
`if (service.storage_size)` is `jsTruthy`; inside that branch the value is
`service.storage_size.getD 0` (only reached when the field is a truthy
number). -/
def processService (costs : CostBreakdown) (service : AWSService) : CostBreakdown :=
  let n := strToUpper service.name
  if n = "EC2" then
    let instanceType := jsOrStr service.instance_type "t3.medium"
    let rate := jsOr (ec2Monthly instanceType) 30
    let ec2Cost := rate * service.count
    let afterEC2 : CostBreakdown :=
      { costs with compute := costs.compute + ec2Cost,
                   details := costs.details ++ [⟨"EC2", service.count, rate, ec2Cost⟩] }
    if jsTruthy service.storage_size then
      let ssize := service.storage_size.getD 0
      let ebsCost := ssize * service.count * ebsGp3PerGb
      { afterEC2 with storage := afterEC2.storage + ebsCost,
                      details := afterEC2.details ++
                        [⟨"EBS", ssize * service.count, ebsGp3PerGb, ebsCost⟩] }
    else afterEC2
  else if n = "RDS" then
    let dbInstanceType := jsOrStr service.instance_type "db.t3.medium"
    let rate := jsOr (rdsMonthly dbInstanceType) 50
    let rdsCost := rate * service.count
    { costs with database := costs.database + rdsCost,
                 details := costs.details ++ [⟨"RDS", service.count, rate, rdsCost⟩] }
  else if n = "S3" then
    let s3StorageSize := jsOr service.storage_size 100
    let s3Cost := s3StorageSize * s3StandardPerGb
    { costs with storage := costs.storage + s3Cost,
                 details := costs.details ++
                   [⟨"S3", s3StorageSize, s3StandardPerGb, s3Cost⟩] }
  else if n = "ALB" ∨ n = "APPLICATION LOAD BALANCER" then
    let albCost := albMonthly * service.count
    let lcuCost := albLcuHourly * 24 * 30 * 2
    let totalAlbCost := albCost + lcuCost
    { costs with network := costs.network + totalAlbCost,
                 details := costs.details ++
                   [⟨"ALB", service.count, albMonthly + lcuCost / service.count,
                     totalAlbCost⟩] }
  else if n = "CLOUDFRONT" then
    let bandwidth := jsOr service.bandwidth 1000
    let cfCost := bandwidth * cloudFrontDataTransferPerGb + cloudFrontMonthlyBase
    { costs with network := costs.network + cfCost,
                 details := costs.details ++
                   [⟨"CloudFront", bandwidth, cloudFrontDataTransferPerGb, cfCost⟩] }
  else if n = "WAF" ∨ n = "AWS WAF" then
    let wafCost := wafMonthlyBase + wafPerMillionRequests
    { costs with network := costs.network + wafCost,
                 details := costs.details ++ [⟨"AWS WAF", 1, wafCost, wafCost⟩] }
  else if n = "ECS" ∨ n = "ELASTIC CONTAINER SERVICE" then
    let ecsCost := ecsEc2LaunchType
    { costs with compute := costs.compute + ecsCost,
                 details := costs.details ++
                   [⟨"Amazon ECS", service.count, 0, ecsCost⟩] }
  else if n = "ELASTICACHE" then
    let cacheInstanceType := jsOrStr service.instance_type "cache.t3.micro"
    let rate := jsOr (elastiCacheMonthly cacheInstanceType) 12.41
    let cacheCost := rate * service.count
    { costs with database := costs.database + cacheCost,
                 details := costs.details ++
                   [⟨"Amazon ElastiCache", service.count, rate, cacheCost⟩] }
  else if n = "CLOUDWATCH" then
    let cwCost := cloudWatchBasicMonitoring
    { costs with network := costs.network + cwCost,
                 details := costs.details ++
                   [⟨"Amazon CloudWatch", 1, cwCost, cwCost⟩] }
  else if n = "CLOUDTRAIL" then
    let ctCost := cloudTrailManagementEvents
    { costs with network := costs.network + ctCost,
                 details := costs.details ++
                   [⟨"AWS CloudTrail", 1, ctCost, ctCost⟩] }
  else if n = "SNS" ∨ n = "SIMPLE NOTIFICATION SERVICE" then
    let snsCost := snsPer1000Notifications
    { costs with network := costs.network + snsCost,
                 details := costs.details ++ [⟨"Amazon SNS", 1, snsCost, snsCost⟩] }
  else if n = "NAT GATEWAY" then
    let natCost := natGatewayMonthly * service.count
    let dataProcessing := jsOr service.bandwidth 500 * natDataProcessingPerGb
    let totalNatCost := natCost + dataProcessing
    { costs with network := costs.network + totalNatCost,
                 details := costs.details ++
                   [⟨"NAT Gateway", service.count,
                     natGatewayMonthly + dataProcessing / service.count,
                     totalNatCost⟩] }
  else
    let genericCost := service.count * 25
    { costs with compute := costs.compute + genericCost,
                 details := costs.details ++
                   [⟨service.name, service.count, 25, genericCost⟩] }

/-- `calculateAWSCosts(analysisResult, region)`: fold the pricing switch over
the service list, then set `total` to the sum of the four buckets.  The
`region` parameter is accepted and (as in the source) unused. -/
def calculateAWSCosts (analysisResult : ArchitectureAnalysisResult)
    (_region : String) : CostBreakdown :=
  let costs := analysisResult.services.foldl processService
    { compute := 0, storage := 0, network := 0, database := 0, total := 0, details := [] }
  { costs with total := costs.compute + costs.storage + costs.network + costs.database }

/-- `generateCostOptimizationRecommendations(costBreakdown)`: the four
independent threshold rules, each appending its two strings when it fires,
in the source's push order. -/
def generateCostOptimizationRecommendations (costBreakdown : CostBreakdown) :
    List String :=
  (if costBreakdown.compute > costBreakdown.total * 0.6 then
    ["Consider Reserved Instances for compute resources to save up to 75%",
     "Implement Auto Scaling to optimize instance usage during low traffic periods"]
   else []) ++
  (if costBreakdown.storage > costBreakdown.total * 0.3 then
    ["Use S3 Intelligent Tiering to automatically optimize storage costs",
     "Consider S3 Glacier for long-term archival storage"]
   else []) ++
  (if costBreakdown.network > costBreakdown.total * 0.25 then
    ["Optimize data transfer by using CloudFront CDN more effectively",
     "Consider AWS Direct Connect for high-volume data transfer"]
   else []) ++
  (if costBreakdown.total > 500 then
    ["Enable AWS Cost Explorer and set up billing alerts",
     "Consider AWS Savings Plans for additional discounts"]
   else [])

/-- One custom usage field of a category configuration returned by
`getServiceConfiguration` (the source's `{ name, label, type, options?,
placeholder? }`; the `type` key is named `kind` here). -/
structure FieldSpec where
  name : String
  label : String
  kind : String
  options : List String := []
  placeholder : String := ""
deriving DecidableEq, Repr

/-- A category configuration descriptor returned by
`getServiceConfiguration`. -/
structure CategoryConfig where
  showCount : Bool
  showInstanceType : Bool
  countLabel : String
  customFields : List FieldSpec
  description : String
deriving DecidableEq, Repr

/-- Configuration returned by the EC2 rule of the classifier. -/
def ec2ServiceConfig : CategoryConfig where
  showCount := true
  showInstanceType := true
  countLabel := "EC2 Instances"
  customFields :=
    [{ name := "os", label := "Operating System", kind := "select",
       options := ["Linux", "Windows", "RHEL", "SUSE"] },
     { name := "tenancy", label := "Tenancy", kind := "select",
       options := ["Shared", "Dedicated"] },
     { name := "storage", label := "EBS Storage (GB)", kind := "number",
       placeholder := "100" }]
  description := "EC2 pricing includes instance hours, storage, and data transfer."

/-- Configuration returned by the Lambda rule of the classifier. -/
def lambdaServiceConfig : CategoryConfig where
  showCount := false
  showInstanceType := false
  countLabel := "Serverless Functions"
  customFields :=
    [{ name := "invocations", label := "Invocations per Month", kind := "number",
       placeholder := "1000000" },
     { name := "memory", label := "Memory (MB)", kind := "select",
       options := ["128", "256", "512", "1024", "2048", "3008"] },
     { name := "duration", label := "Avg Duration (ms)", kind := "number",
       placeholder := "200" }]
  description := "Lambda pricing is based on invocations, memory allocation, and execution time."

/-- Configuration returned by the ECS rule of the classifier. -/
def ecsServiceConfig : CategoryConfig where
  showCount := true
  showInstanceType := true
  countLabel := "Container Instances"
  customFields :=
    [{ name := "launchType", label := "Launch Type", kind := "select",
       options := ["EC2", "Fargate"] },
     { name := "cpu", label := "vCPU Units", kind := "number", placeholder := "256" },
     { name := "memory", label := "Memory (MB)", kind := "number", placeholder := "512" }]
  description := "ECS pricing depends on launch type - EC2 instances or Fargate serverless containers."

/-- Configuration returned by the EKS rule of the classifier. -/
def eksServiceConfig : CategoryConfig where
  showCount := true
  showInstanceType := false
  countLabel := "EKS Clusters"
  customFields :=
    [{ name := "nodeGroups", label := "Worker Node Groups", kind := "number",
       placeholder := "2" },
     { name := "nodeInstanceType", label := "Node Instance Type", kind := "select",
       options := ["t3.medium", "m5.large", "m5.xlarge", "c5.large"] },
     { name := "nodesPerGroup", label := "Nodes per Group", kind := "number",
       placeholder := "3" }]
  description := "EKS charges per cluster hour plus EC2 instances for worker nodes."

/-- Configuration returned by the Batch rule of the classifier. -/
def batchServiceConfig : CategoryConfig where
  showCount := false
  showInstanceType := false
  countLabel := "Batch Service"
  customFields :=
    [{ name := "jobsPerMonth", label := "Jobs per Month", kind := "number",
       placeholder := "10000" },
     { name := "computeType", label := "Compute Type", kind := "select",
       options := ["EC2", "Fargate", "EC2 Spot"] },
     { name := "avgJobDuration", label := "Avg Job Duration (minutes)", kind := "number",
       placeholder := "15" }]
  description := "AWS Batch charges for underlying compute resources used by batch jobs."

/-- Configuration returned by the S3 rule of the classifier. -/
def s3ServiceConfig : CategoryConfig where
  showCount := false
  showInstanceType := false
  countLabel := "Storage Service"
  customFields :=
    [{ name := "storageGB", label := "Storage (GB)", kind := "number",
       placeholder := "1000" },
     { name := "storageClass", label := "Storage Class", kind := "select",
       options := ["Standard", "Intelligent-Tiering", "Standard-IA",
                   "Glacier Instant", "Glacier Flexible", "Deep Archive"] },
     { name := "requests", label := "Requests per Month", kind := "number",
       placeholder := "100000" }]
  description := "S3 pricing is based on storage volume, requests, and data transfer."

/-- Configuration returned by the EBS rule of the classifier. -/
def ebsServiceConfig : CategoryConfig where
  showCount := false
  showInstanceType := false
  countLabel := "Block Storage"
  customFields :=
    [{ name := "volumeSize", label := "Volume Size (GB)", kind := "number",
       placeholder := "100" },
     { name := "volumeType", label := "Volume Type", kind := "select",
       options := ["gp3", "gp2", "io2", "io1", "st1", "sc1"] },
     { name := "iops", label := "Provisioned IOPS", kind := "number",
       placeholder := "3000" }]
  description := "EBS charges for provisioned storage, IOPS, and throughput."

/-- Configuration returned by the EFS rule of the classifier. -/
def efsServiceConfig : CategoryConfig where
  showCount := false
  showInstanceType := false
  countLabel := "File System"
  customFields :=
    [{ name := "storageGB", label := "Storage (GB)", kind := "number",
       placeholder := "500" },
     { name := "storageClass", label := "Storage Class", kind := "select",
       options := ["Standard", "Infrequent Access"] },
     { name := "throughputMode", label := "Throughput Mode", kind := "select",
       options := ["Bursting", "Provisioned"] }]
  description := "EFS pricing is based on storage used and throughput mode."

/-- Configuration returned by the FSx rule of the classifier. -/
def fsxServiceConfig : CategoryConfig where
  showCount := true
  showInstanceType := false
  countLabel := "FSx File Systems"
  customFields :=
    [{ name := "fileSystemType", label := "File System Type", kind := "select",
       options := ["Lustre", "Windows File Server", "NetApp ONTAP", "OpenZFS"] },
     { name := "storageCapacity", label := "Storage Capacity (GB)", kind := "number",
       placeholder := "1200" },
     { name := "throughputCapacity", label := "Throughput (MB/s)", kind := "number",
       placeholder := "250" }]
  description := "FSx pricing depends on file system type, storage capacity, and throughput."

/-- Configuration returned by the RDS rule of the classifier (the generic
relational-database category). -/
def rdsServiceConfig : CategoryConfig where
  showCount := true
  showInstanceType := true
  countLabel := "Database Instances"
  customFields :=
    [{ name := "engine", label := "Database Engine", kind := "select",
       options := ["MySQL", "PostgreSQL", "Oracle", "SQL Server", "MariaDB",
                   "Aurora MySQL", "Aurora PostgreSQL"] },
     { name := "storage", label := "Storage (GB)", kind := "number",
       placeholder := "100" },
     { name := "multiAZ", label := "Multi-AZ", kind := "select",
       options := ["Yes", "No"] }]
  description := "RDS pricing includes instance costs, storage, and backup storage."

/-- Configuration returned by the DynamoDB rule of the classifier
(read/write capacity units, billing mode). -/
def dynamoDBServiceConfig : CategoryConfig where
  showCount := false
  showInstanceType := false
  countLabel := "NoSQL Database"
  customFields :=
    [{ name := "readCapacity", label := "Read Capacity Units", kind := "number",
       placeholder := "25" },
     { name := "writeCapacity", label := "Write Capacity Units", kind := "number",
       placeholder := "25" },
     { name := "storageGB", label := "Storage (GB)", kind := "number",
       placeholder := "25" },
     { name := "billingMode", label := "Billing Mode", kind := "select",
       options := ["On-Demand", "Provisioned"] }]
  description := "DynamoDB pricing is based on throughput capacity and storage consumption."

/-- `getServiceConfiguration(service)` of the sizing-adjustment component
(the comprehensive 40-plus-rule variant): lowercase the name and type, then
evaluate the ordered predicate chain, first match wins.  The chain is
embedded up to and including the DynamoDB rule — the rules the claims are
about; the remaining rules (ElastiCache, DocumentDB, ... and the catch-all
default) are collapsed to `none`, and no theorem below depends on an input
that reaches them. -/
def getServiceConfiguration (service : AWSService) : Option CategoryConfig :=
  let serviceName := strToLower service.name
  let serviceType := strToLower service.type
  if containsSubstr serviceName "ec2" || containsSubstr serviceName "elastic compute" ||
     containsSubstr serviceType "compute" || containsSubstr serviceType "server" then
    some ec2ServiceConfig
  else if containsSubstr serviceName "lambda" || containsSubstr serviceType "function" then
    some lambdaServiceConfig
  else if containsSubstr serviceName "ecs" || containsSubstr serviceName "elastic container" ||
          containsSubstr serviceType "container" then
    some ecsServiceConfig
  else if containsSubstr serviceName "eks" || containsSubstr serviceName "kubernetes" then
    some eksServiceConfig
  else if containsSubstr serviceName "batch" then
    some batchServiceConfig
  else if containsSubstr serviceName "s3" || containsSubstr serviceName "simple storage" ||
          containsSubstr serviceType "storage" then
    some s3ServiceConfig
  else if containsSubstr serviceName "ebs" || containsSubstr serviceName "elastic block" then
    some ebsServiceConfig
  else if containsSubstr serviceName "efs" || containsSubstr serviceName "elastic file" then
    some efsServiceConfig
  else if containsSubstr serviceName "fsx" then
    some fsxServiceConfig
  else if containsSubstr serviceName "rds" || containsSubstr serviceName "relational database" ||
          containsSubstr serviceType "database" then
    some rdsServiceConfig
  else if containsSubstr serviceName "dynamodb" then
    some dynamoDBServiceConfig
  else
    none

/-- A JavaScript number for the dynamic-semantics model: a rational, NaN, or
one of the infinities.  NaN is what a missing (`undefined`) or non-numeric
`count` behaves as in every arithmetic position of the source. -/
inductive JsNum where
  | nan : JsNum
  | inf : JsNum
  | ninf : JsNum
  | num : ℚ → JsNum
deriving DecidableEq, Repr

/-- JavaScript `+` on numbers (signed zero not modelled). -/
def jadd : JsNum → JsNum → JsNum
  | .nan, _ => .nan
  | _, .nan => .nan
  | .inf, .ninf => .nan
  | .ninf, .inf => .nan
  | .inf, _ => .inf
  | _, .inf => .inf
  | .ninf, _ => .ninf
  | _, .ninf => .ninf
  | .num a, .num b => .num (a + b)

/-- JavaScript `*` on numbers. -/
def jmul : JsNum → JsNum → JsNum
  | .nan, _ => .nan
  | _, .nan => .nan
  | .inf, .inf => .inf
  | .inf, .ninf => .ninf
  | .ninf, .inf => .ninf
  | .ninf, .ninf => .inf
  | .inf, .num b => if b = 0 then .nan else if 0 < b then .inf else .ninf
  | .num a, .inf => if a = 0 then .nan else if 0 < a then .inf else .ninf
  | .ninf, .num b => if b = 0 then .nan else if 0 < b then .ninf else .inf
  | .num a, .ninf => if a = 0 then .nan else if 0 < a then .ninf else .inf
  | .num a, .num b => .num (a * b)

/-- JavaScript `/` on numbers (signed zero not modelled, so a finite value
divided by zero takes the sign of the numerator). -/
def jdiv : JsNum → JsNum → JsNum
  | .nan, _ => .nan
  | _, .nan => .nan
  | .inf, .inf => .nan
  | .inf, .ninf => .nan
  | .ninf, .inf => .nan
  | .ninf, .ninf => .nan
  | .inf, .num b => if 0 ≤ b then .inf else .ninf
  | .ninf, .num b => if 0 ≤ b then .ninf else .inf
  | .num _, .inf => .num 0
  | .num _, .ninf => .num 0
  | .num a, .num b =>
    if b = 0 then (if a = 0 then .nan else if 0 < a then .inf else .ninf)
    else .num (a / b)

/-- A service element as it actually arrives from the AI analysis: the
`count` field may be missing or a non-numeric string, both of which behave
as NaN in every arithmetic position of `calculateAWSCosts`, so `count` is a
`JsNum` with `nan` standing for those malformed cases. -/
structure ServiceJS where
  name : String
  type : String
  count : JsNum
  instance_type : Option String
  storage_size : Option ℚ
  bandwidth : Option ℚ
deriving DecidableEq, Repr

/-- Line item of the dynamic-semantics model. -/
structure LineItemJS where
  service : String
  quantity : JsNum
  unit_cost : JsNum
  total_cost : JsNum
deriving DecidableEq, Repr

/-- Cost breakdown of the dynamic-semantics model. -/
structure CostBreakdownJS where
  compute : JsNum
  storage : JsNum
  network : JsNum
  database : JsNum
  total : JsNum
  details : List LineItemJS
deriving DecidableEq, Repr

/-- Dynamic-semantics embedding of the loop body of `calculateAWSCosts`:
identical branch structure to `processService`, with JavaScript number
arithmetic so that a malformed `count` propagates as NaN instead of being
assumed rational. -/
def processServiceJS (costs : CostBreakdownJS) (service : ServiceJS) : CostBreakdownJS :=
  let n := strToUpper service.name
  if n = "EC2" then
    let instanceType := jsOrStr service.instance_type "t3.medium"
    let rate := jsOr (ec2Monthly instanceType) 30
    let ec2Cost := jmul (.num rate) service.count
    let afterEC2 : CostBreakdownJS :=
      { costs with compute := jadd costs.compute ec2Cost,
                   details := costs.details ++
                     [⟨"EC2", service.count, .num rate, ec2Cost⟩] }
    if jsTruthy service.storage_size then
      let ssize := service.storage_size.getD 0
      let ebsCost := jmul (jmul (.num ssize) service.count) (.num ebsGp3PerGb)
      { afterEC2 with storage := jadd afterEC2.storage ebsCost,
                      details := afterEC2.details ++
                        [⟨"EBS", jmul (.num ssize) service.count, .num ebsGp3PerGb,
                          ebsCost⟩] }
    else afterEC2
  else if n = "RDS" then
    let dbInstanceType := jsOrStr service.instance_type "db.t3.medium"
    let rate := jsOr (rdsMonthly dbInstanceType) 50
    let rdsCost := jmul (.num rate) service.count
    { costs with database := jadd costs.database rdsCost,
                 details := costs.details ++
                   [⟨"RDS", service.count, .num rate, rdsCost⟩] }
  else if n = "S3" then
    let s3StorageSize := jsOr service.storage_size 100
    let s3Cost := s3StorageSize * s3StandardPerGb
    { costs with storage := jadd costs.storage (.num s3Cost),
                 details := costs.details ++
                   [⟨"S3", .num s3StorageSize, .num s3StandardPerGb, .num s3Cost⟩] }
  else if n = "ALB" ∨ n = "APPLICATION LOAD BALANCER" then
    let albCost := jmul (.num albMonthly) service.count
    let lcuCost : ℚ := albLcuHourly * 24 * 30 * 2
    let totalAlbCost := jadd albCost (.num lcuCost)
    { costs with network := jadd costs.network totalAlbCost,
                 details := costs.details ++
                   [⟨"ALB", service.count,
                     jadd (.num albMonthly) (jdiv (.num lcuCost) service.count),
                     totalAlbCost⟩] }
  else if n = "CLOUDFRONT" then
    let bandwidth := jsOr service.bandwidth 1000
    let cfCost := bandwidth * cloudFrontDataTransferPerGb + cloudFrontMonthlyBase
    { costs with network := jadd costs.network (.num cfCost),
                 details := costs.details ++
                   [⟨"CloudFront", .num bandwidth, .num cloudFrontDataTransferPerGb,
                     .num cfCost⟩] }
  else if n = "WAF" ∨ n = "AWS WAF" then
    let wafCost := wafMonthlyBase + wafPerMillionRequests
    { costs with network := jadd costs.network (.num wafCost),
                 details := costs.details ++
                   [⟨"AWS WAF", .num 1, .num wafCost, .num wafCost⟩] }
  else if n = "ECS" ∨ n = "ELASTIC CONTAINER SERVICE" then
    let ecsCost := ecsEc2LaunchType
    { costs with compute := jadd costs.compute (.num ecsCost),
                 details := costs.details ++
                   [⟨"Amazon ECS", service.count, .num 0, .num ecsCost⟩] }
  else if n = "ELASTICACHE" then
    let cacheInstanceType := jsOrStr service.instance_type "cache.t3.micro"
    let rate := jsOr (elastiCacheMonthly cacheInstanceType) 12.41
    let cacheCost := jmul (.num rate) service.count
    { costs with database := jadd costs.database cacheCost,
                 details := costs.details ++
                   [⟨"Amazon ElastiCache", service.count, .num rate, cacheCost⟩] }
  else if n = "CLOUDWATCH" then
    let cwCost := cloudWatchBasicMonitoring
    { costs with network := jadd costs.network (.num cwCost),
                 details := costs.details ++
                   [⟨"Amazon CloudWatch", .num 1, .num cwCost, .num cwCost⟩] }
  else if n = "CLOUDTRAIL" then
    let ctCost := cloudTrailManagementEvents
    { costs with network := jadd costs.network (.num ctCost),
                 details := costs.details ++
                   [⟨"AWS CloudTrail", .num 1, .num ctCost, .num ctCost⟩] }
  else if n = "SNS" ∨ n = "SIMPLE NOTIFICATION SERVICE" then
    let snsCost := snsPer1000Notifications
    { costs with network := jadd costs.network (.num snsCost),
                 details := costs.details ++
                   [⟨"Amazon SNS", .num 1, .num snsCost, .num snsCost⟩] }
  else if n = "NAT GATEWAY" then
    let natCost := jmul (.num natGatewayMonthly) service.count
    let dataProcessing : ℚ := jsOr service.bandwidth 500 * natDataProcessingPerGb
    let totalNatCost := jadd natCost (.num dataProcessing)
    { costs with network := jadd costs.network totalNatCost,
                 details := costs.details ++
                   [⟨"NAT Gateway", service.count,
                     jadd (.num natGatewayMonthly) (jdiv (.num dataProcessing) service.count),
                     totalNatCost⟩] }
  else
    let genericCost := jmul service.count (.num 25)
    { costs with compute := jadd costs.compute genericCost,
                 details := costs.details ++
                   [⟨service.name, service.count, .num 25, genericCost⟩] }

/-- Dynamic-semantics embedding of `calculateAWSCosts` over possibly
malformed service lists.  Total on every input: the source never throws on a
malformed `count`, it propagates NaN. -/
def calculateAWSCostsJS (services : List ServiceJS) (_region : String) : CostBreakdownJS :=
  let costs := services.foldl processServiceJS
    { compute := .num 0, storage := .num 0, network := .num 0, database := .num 0,
      total := .num 0, details := [] }
  { costs with total := jadd (jadd (jadd costs.compute costs.storage) costs.network)
                          costs.database }

/-- `isThrottlingError` classification inside `generateDocumentContent`'s
catch block: the message contains one of the three throttling indicators. -/
def isThrottlingError (errorMessage : String) : Bool :=
  containsSubstr errorMessage "ThrottlingException" ||
  containsSubstr errorMessage "Too many requests" ||
  containsSubstr errorMessage "429"

/-- `maxRetries` of `generateDocumentContent`. -/
def maxRetries : Nat := 3

/-- `baseDelay` of `generateDocumentContent`, in milliseconds. -/
def baseDelay : Nat := 2000

/-- `generateDocumentContent(analysisResult, costBreakdown, documentType,
retryCount)`.  The Bedrock model invocation is abstracted as `call`, a
function from the attempt's `retryCount` to its outcome.  The analysis and
cost arguments only feed the prompt text, which is irrelevant here, so they
are dropped.  Returns the final outcome together with the list of backoff
delays slept before each retry; a success returns the model text, a
non-retried failure throws (returns) the wrapped error message. -/
def generateDocumentContent (documentType : String)
    (call : Nat → Except String String) (retryCount : Nat) :
    Except String String × List Nat :=
  match call retryCount with
  | .ok text => (.ok text, [])
  | .error msg =>
    if h : isThrottlingError msg = true ∧ retryCount < maxRetries then
      let rest := generateDocumentContent documentType call (retryCount + 1)
      (rest.1, baseDelay * 2 ^ retryCount :: rest.2)
    else
      (.error ("Failed to generate " ++ documentType ++ " document: " ++ msg), [])
termination_by maxRetries - retryCount
decreasing_by
  have h2 := h.2
  simp only [maxRetries] at h2 ⊢
  omega

/-- The status string the `/api/generate-documents` route records for a
failed document: its rate-limit test checks only two of the three
throttling indicators. -/
def batchFailureStatus (errorMessage : String) : String :=
  if containsSubstr errorMessage "Too many requests" ||
     containsSubstr errorMessage "ThrottlingException" then "rate_limited"
  else "failed"

/-- The per-document loop of the `/api/generate-documents` route: each
recognized document type is attempted (`outcome` abstracts generation plus
PDF assembly); a success is recorded with status `"generated"`, a failure is
caught, recorded via `batchFailureStatus`, and the loop continues; an
unrecognized type is skipped (`continue`).  Returns the recorded
`(documentType, status)` pairs in order. -/
def processDocumentTypes (outcome : String → Except String String) :
    List String → List (String × String)
  | [] => []
  | docType :: rest =>
    if docType = "pricing" ∨ docType = "solution" ∨ docType = "deployment" ∨
       docType = "monitoring" then
      (match outcome docType with
       | .ok _ => (docType, "generated")
       | .error msg => (docType, batchFailureStatus msg)) ::
        processDocumentTypes outcome rest
    else
      processDocumentTypes outcome rest

/-- Sum of the four cost buckets of a breakdown. -/
def bucketSum (b : CostBreakdown) : ℚ :=
  b.compute + b.storage + b.network + b.database

/-- Sum of `total_cost` over the line items of a breakdown. -/
def detailsTotal (b : CostBreakdown) : ℚ :=
  (b.details.map LineItem.total_cost).sum

theorem generateDocumentContent_ok (d : String) (call : Nat → Except String String)
    (rc : Nat) (t : String) (hc : call rc = .ok t) :
    generateDocumentContent d call rc = (.ok t, []) := by
  rw [generateDocumentContent.eq_def, hc]

theorem generateDocumentContent_throttle (d : String)
    (call : Nat → Except String String) (rc : Nat) (msg : String)
    (hc : call rc = .error msg) (ht : isThrottlingError msg = true)
    (hr : rc < maxRetries) :
    generateDocumentContent d call rc =
      ((generateDocumentContent d call (rc + 1)).1,
       baseDelay * 2 ^ rc :: (generateDocumentContent d call (rc + 1)).2) := by
  rw [generateDocumentContent.eq_def, hc]
  dsimp only
  rw [dif_pos ⟨ht, hr⟩]

theorem generateDocumentContent_stop (d : String)
    (call : Nat → Except String String) (rc : Nat) (msg : String)
    (hc : call rc = .error msg)
    (hno : ¬(isThrottlingError msg = true ∧ rc < maxRetries)) :
    generateDocumentContent d call rc =
      (.error ("Failed to generate " ++ d ++ " document: " ++ msg), []) := by
  rw [generateDocumentContent.eq_def, hc]
  dsimp only
  rw [dif_neg hno]

/-- Claim C1: for every input service list and region, the `CostBreakdown`
returned by `calculateAWSCosts` satisfies
`total = compute + storage + network + database`. -/
theorem C1_total_is_bucket_sum (a : ArchitectureAnalysisResult) (region : String) :
    (calculateAWSCosts a region).total =
      (calculateAWSCosts a region).compute + (calculateAWSCosts a region).storage +
      (calculateAWSCosts a region).network + (calculateAWSCosts a region).database := rfl

/-- Claim C8: `generateCostOptimizationRecommendations` on the all-zero
breakdown returns the empty list (and is total on this input: the embedded
function has no division at all, so no division by zero can occur). -/
theorem C8_zero_breakdown_no_recommendations :
    generateCostOptimizationRecommendations
      { compute := 0, storage := 0, network := 0, database := 0, total := 0,
        details := [] } = [] := by
  norm_num [generateCostOptimizationRecommendations]

/-- Claim C3: a service whose uppercased name matches none of the recognized
literal tags yields exactly one line item with unit cost 25 and total cost
`count * 25`, booked entirely to the compute bucket. -/
theorem C3_unrecognized_flat_fallback (s : AWSService) (region : String)
    (h : strToUpper s.name ∉ recognizedServiceTags) :
    calculateAWSCosts { services := [s], architecture_patterns := [],
                        recommendations := [], confidence := 1 } region =
      { compute := s.count * 25, storage := 0, network := 0, database := 0,
        total := s.count * 25,
        details := [⟨s.name, s.count, 25, s.count * 25⟩] } := by
  simp only [recognizedServiceTags, List.mem_cons, List.not_mem_nil, or_false,
    not_or] at h
  obtain ⟨h1, h2, h3, h4, h5, h6, h7, h8, h9, h10, h11, h12, h13, h14, h15, h16⟩ := h
  simp [calculateAWSCosts, processService, h1, h2, h3, h4, h5, h6, h7, h8, h9,
    h10, h11, h12, h13, h14, h15, h16]

/-- Witness for C3 at the spec's example: `FooBarService` with count 3 gives
a single compute line of 75. -/
theorem C3_unrecognized_flat_fallback_witness :
    strToUpper "FooBarService" ∉ recognizedServiceTags ∧
    calculateAWSCosts { services := [⟨"FooBarService", "", 3, none, none, none⟩],
                        architecture_patterns := [], recommendations := [],
                        confidence := 1 } "us-east-1" =
      { compute := (3 : ℚ) * 25, storage := 0, network := 0, database := 0,
        total := (3 : ℚ) * 25,
        details := [⟨"FooBarService", 3, 25, (3 : ℚ) * 25⟩] } :=
  ⟨by decide, C3_unrecognized_flat_fallback ⟨"FooBarService", "", 3, none, none, none⟩
    "us-east-1" (by decide)⟩

/-- Counterexample to claim C2 as stated: with `storage_size` present but
equal to 0, the source's truthiness guard `if (service.storage_size)` skips
the EBS line, so "a second EBS line item if and only if storage_size is
present" is false. -/
theorem C2_counterexample :
    (some (0 : ℚ)).isSome = true ∧
    ((calculateAWSCosts
        { services := [⟨"EC2", "compute", 1, some "t3.medium", some 0, none⟩],
          architecture_patterns := [], recommendations := [], confidence := 1 }
        "us-east-1").details.map LineItem.service) = ["EC2"] := by
  refine ⟨rfl, ?_⟩
  have hn : strToUpper "EC2" = "EC2" := by decide
  have hts : jsTruthy (some (0 : ℚ)) = false := by decide
  simp [calculateAWSCosts, processService, hn, hts]

/-- Claim C2, amended: for every service whose name uppercases to `"EC2"`,
the dispatch emits an EC2 line with total cost
`monthlyRate(instance_type, default "t3.medium", fallback 30) * count`
booked to compute, and a second EBS line costing
`storage_size * count * gp3_per_gb` booked to storage if and only if
`storage_size` is present AND nonzero (JavaScript truthiness); the network
and database buckets are untouched. -/
theorem C2_ec2_lines (c : CostBreakdown) (s : AWSService)
    (h : strToUpper s.name = "EC2") :
    (processService c s).compute =
      c.compute + jsOr (ec2Monthly (jsOrStr s.instance_type "t3.medium")) 30 * s.count ∧
    (processService c s).storage =
      c.storage + (if jsTruthy s.storage_size = true
        then s.storage_size.getD 0 * s.count * ebsGp3PerGb else 0) ∧
    (processService c s).details =
      c.details ++
        [⟨"EC2", s.count, jsOr (ec2Monthly (jsOrStr s.instance_type "t3.medium")) 30,
          jsOr (ec2Monthly (jsOrStr s.instance_type "t3.medium")) 30 * s.count⟩] ++
        (if jsTruthy s.storage_size = true
         then [⟨"EBS", s.storage_size.getD 0 * s.count, ebsGp3PerGb,
               s.storage_size.getD 0 * s.count * ebsGp3PerGb⟩] else []) ∧
    (processService c s).network = c.network ∧
    (processService c s).database = c.database := by
  by_cases ht : jsTruthy s.storage_size = true <;>
    simp [processService, h, ht]

/-- Witness for C2 at the spec's example: one EC2 instance of type
`t3.medium` with 50 GB of storage. -/
theorem C2_ec2_lines_witness :
    strToUpper "EC2" = "EC2" ∧
    (processService { compute := 0, storage := 0, network := 0, database := 0,
                      total := 0, details := [] }
        ⟨"EC2", "compute", 1, some "t3.medium", some 50, none⟩).details =
      [] ++
        [⟨"EC2", 1, jsOr (ec2Monthly (jsOrStr (some "t3.medium") "t3.medium")) 30,
          jsOr (ec2Monthly (jsOrStr (some "t3.medium") "t3.medium")) 30 * 1⟩] ++
        (if jsTruthy (some (50 : ℚ)) = true
         then [⟨"EBS", (some (50 : ℚ)).getD 0 * 1, ebsGp3PerGb,
               (some (50 : ℚ)).getD 0 * 1 * ebsGp3PerGb⟩] else []) :=
  ⟨by decide,
   (C2_ec2_lines { compute := 0, storage := 0, network := 0, database := 0,
                   total := 0, details := [] }
      ⟨"EC2", "compute", 1, some "t3.medium", some 50, none⟩ (by decide)).2.2.1⟩

/-- Counterexample to claim C5 as stated: with `type` equal to `"database"`,
the RDS rule (which tests whether the lowercased type contains
`"database"`) precedes the DynamoDB rule, so `{name: "Amazon DynamoDB",
type: "database"}` resolves to the RDS configuration, not the
DynamoDB-specific one. -/
theorem C5_counterexample :
    getServiceConfiguration ⟨"Amazon DynamoDB", "database", 1, none, none, none⟩ =
      some rdsServiceConfig ∧
    rdsServiceConfig ≠ dynamoDBServiceConfig := by
  exact ⟨by decide, by decide⟩

/-- Claim C5, amended: a service named `"Amazon DynamoDB"` resolves to the
DynamoDB-specific configuration for every `type` value whose lowercase form
contains none of the six type substrings tested by the earlier rules
(`compute`, `server`, `function`, `container`, `storage`, `database`). -/
theorem C5_dynamodb_resolution (t : String) (count : ℚ) (it : Option String)
    (ssize bw : Option ℚ)
    (h1 : containsSubstr (strToLower t) "compute" = false)
    (h2 : containsSubstr (strToLower t) "server" = false)
    (h3 : containsSubstr (strToLower t) "function" = false)
    (h4 : containsSubstr (strToLower t) "container" = false)
    (h5 : containsSubstr (strToLower t) "storage" = false)
    (h6 : containsSubstr (strToLower t) "database" = false) :
    getServiceConfiguration ⟨"Amazon DynamoDB", t, count, it, ssize, bw⟩ =
      some dynamoDBServiceConfig := by
  have n1 : containsSubstr (strToLower "Amazon DynamoDB") "ec2" = false := by decide
  have n2 : containsSubstr (strToLower "Amazon DynamoDB") "elastic compute" = false := by
    decide
  have n3 : containsSubstr (strToLower "Amazon DynamoDB") "lambda" = false := by decide
  have n4 : containsSubstr (strToLower "Amazon DynamoDB") "ecs" = false := by decide
  have n5 : containsSubstr (strToLower "Amazon DynamoDB") "elastic container" = false := by
    decide
  have n6 : containsSubstr (strToLower "Amazon DynamoDB") "eks" = false := by decide
  have n7 : containsSubstr (strToLower "Amazon DynamoDB") "kubernetes" = false := by decide
  have n8 : containsSubstr (strToLower "Amazon DynamoDB") "batch" = false := by decide
  have n9 : containsSubstr (strToLower "Amazon DynamoDB") "s3" = false := by decide
  have n10 : containsSubstr (strToLower "Amazon DynamoDB") "simple storage" = false := by
    decide
  have n11 : containsSubstr (strToLower "Amazon DynamoDB") "ebs" = false := by decide
  have n12 : containsSubstr (strToLower "Amazon DynamoDB") "elastic block" = false := by
    decide
  have n13 : containsSubstr (strToLower "Amazon DynamoDB") "efs" = false := by decide
  have n14 : containsSubstr (strToLower "Amazon DynamoDB") "elastic file" = false := by
    decide
  have n15 : containsSubstr (strToLower "Amazon DynamoDB") "fsx" = false := by decide
  have n16 : containsSubstr (strToLower "Amazon DynamoDB") "rds" = false := by decide
  have n17 : containsSubstr (strToLower "Amazon DynamoDB") "relational database" = false := by
    decide
  have n18 : containsSubstr (strToLower "Amazon DynamoDB") "dynamodb" = true := by decide
  simp [getServiceConfiguration, n1, n2, n3, n4, n5, n6, n7, n8, n9, n10, n11,
    n12, n13, n14, n15, n16, n17, n18, h1, h2, h3, h4, h5, h6]

/-- Witness for the amended C5 with `type = "nosql"`. -/
theorem C5_dynamodb_resolution_witness :
    containsSubstr (strToLower "nosql") "compute" = false ∧
    containsSubstr (strToLower "nosql") "database" = false ∧
    getServiceConfiguration ⟨"Amazon DynamoDB", "nosql", 1, none, none, none⟩ =
      some dynamoDBServiceConfig :=
  ⟨by decide, by decide,
   C5_dynamodb_resolution "nosql" 1 none none none (by decide) (by decide)
     (by decide) (by decide) (by decide) (by decide)⟩

/-- Claim C6: for every ALB service with positive count, the emitted line
item has `total_cost = alb_monthly * count + lcu_hourly * 24 * 30 * 2`, its
unit cost is the back-computed `total_cost / quantity`, and
`unit_cost * quantity = total_cost`; the whole amount is booked to the
network bucket. -/
theorem C6_alb_line (c : CostBreakdown) (s : AWSService)
    (h : strToUpper s.name = "ALB" ∨ strToUpper s.name = "APPLICATION LOAD BALANCER")
    (hc : 0 < s.count) :
    ∃ line : LineItem,
      (processService c s).details = c.details ++ [line] ∧
      line.total_cost = albMonthly * s.count + albLcuHourly * 24 * 30 * 2 ∧
      line.quantity = s.count ∧
      line.unit_cost = line.total_cost / line.quantity ∧
      line.unit_cost * line.quantity = line.total_cost ∧
      (processService c s).network = c.network + line.total_cost := by
  have hne : s.count ≠ 0 := ne_of_gt hc
  refine ⟨⟨"ALB", s.count, albMonthly + albLcuHourly * 24 * 30 * 2 / s.count,
           albMonthly * s.count + albLcuHourly * 24 * 30 * 2⟩, ?_, rfl, rfl, ?_, ?_, ?_⟩
  · rcases h with h | h <;> simp [processService, h]
  · field_simp
  · field_simp
  · rcases h with h | h <;> simp [processService, h]

/-- Witness for C6: two load balancers. -/
theorem C6_alb_line_witness :
    (strToUpper "ALB" = "ALB" ∨ strToUpper "ALB" = "APPLICATION LOAD BALANCER") ∧
    (0 : ℚ) < 2 ∧
    (∃ line : LineItem,
      (processService { compute := 0, storage := 0, network := 0, database := 0,
                        total := 0, details := [] }
          ⟨"ALB", "network", 2, none, none, none⟩).details = [] ++ [line] ∧
      line.total_cost = albMonthly * 2 + albLcuHourly * 24 * 30 * 2 ∧
      line.quantity = 2 ∧
      line.unit_cost = line.total_cost / line.quantity ∧
      line.unit_cost * line.quantity = line.total_cost ∧
      (processService { compute := 0, storage := 0, network := 0, database := 0,
                        total := 0, details := [] }
          ⟨"ALB", "network", 2, none, none, none⟩).network = 0 + line.total_cost) :=
  ⟨Or.inl (by decide), zero_lt_two,
   C6_alb_line { compute := 0, storage := 0, network := 0, database := 0,
                 total := 0, details := [] }
     ⟨"ALB", "network", 2, none, none, none⟩ (Or.inl (by decide)) zero_lt_two⟩

/-- Claim C7: the threshold rules fire independently in the fixed order; in
particular a breakdown with `compute = 0.7 * total` and `total = 600` yields
both compute-heavy strings first and both total-cost strings last. -/
theorem C7_compute_and_total_rules (b : CostBreakdown)
    (h1 : b.compute = 0.7 * b.total) (h2 : b.total = 600) :
    ∃ mid, generateCostOptimizationRecommendations b =
      "Consider Reserved Instances for compute resources to save up to 75%" ::
      "Implement Auto Scaling to optimize instance usage during low traffic periods" ::
      (mid ++ ["Enable AWS Cost Explorer and set up billing alerts",
               "Consider AWS Savings Plans for additional discounts"]) := by
  refine ⟨(if b.storage > b.total * 0.3 then
      ["Use S3 Intelligent Tiering to automatically optimize storage costs",
       "Consider S3 Glacier for long-term archival storage"] else []) ++
    (if b.network > b.total * 0.25 then
      ["Optimize data transfer by using CloudFront CDN more effectively",
       "Consider AWS Direct Connect for high-volume data transfer"] else []), ?_⟩
  have hcomp : b.compute > b.total * 0.6 := by rw [h1, h2]; norm_num
  have htot : b.total > 500 := by rw [h2]; norm_num
  simp [generateCostOptimizationRecommendations, hcomp, htot]

/-- Witness for C7: a 600-dollar breakdown with 70 percent compute. -/
theorem C7_compute_and_total_rules_witness :
    ({ compute := 0.7 * 600, storage := 60, network := 60, database := 60,
       total := 600, details := [] } : CostBreakdown).compute =
      0.7 * ({ compute := 0.7 * 600, storage := 60, network := 60, database := 60,
               total := 600, details := [] } : CostBreakdown).total ∧
    ({ compute := 0.7 * 600, storage := 60, network := 60, database := 60,
       total := 600, details := [] } : CostBreakdown).total = 600 ∧
    (∃ mid, generateCostOptimizationRecommendations
        { compute := 0.7 * 600, storage := 60, network := 60, database := 60,
          total := 600, details := [] } =
      "Consider Reserved Instances for compute resources to save up to 75%" ::
      "Implement Auto Scaling to optimize instance usage during low traffic periods" ::
      (mid ++ ["Enable AWS Cost Explorer and set up billing alerts",
               "Consider AWS Savings Plans for additional discounts"])) :=
  ⟨rfl, rfl,
   C7_compute_and_total_rules
     { compute := 0.7 * 600, storage := 60, network := 60, database := 60,
       total := 600, details := [] } rfl rfl⟩

/-- Counterexample to claim C4 as stated: the source never defaults a
missing `count` to 1.  An unrecognized service with a missing (NaN) count
produces a line item whose total cost is NaN, which differs from the 25 a
count of 1 would yield (the function still returns — it does not throw). -/
theorem C4_counterexample :
    ((calculateAWSCostsJS [⟨"FooBarService", "", .nan, none, none, none⟩]
        "us-east-1").details.map LineItemJS.total_cost = [JsNum.nan]) ∧
    ((calculateAWSCostsJS [⟨"FooBarService", "", .num 1, none, none, none⟩]
        "us-east-1").details.map LineItemJS.total_cost = [JsNum.num 25]) ∧
    JsNum.nan ≠ JsNum.num 25 := by
  have hn : strToUpper "FooBarService" = "FOOBARSERVICE" := by decide
  refine ⟨?_, ?_, by simp⟩ <;>
    simp [calculateAWSCostsJS, processServiceJS, hn, jmul, jadd]

/-- Claim C4, amended: `calculateAWSCosts` is a total function (it does not
throw on malformed input), but a service whose `count` is missing or
non-numeric is NOT treated as count = 1: the count behaves as NaN, so in a
count-multiplying branch such as the default one the line item's total cost
and the affected bucket and grand total are all NaN instead of the
count-equals-1 values. -/
theorem C4_nan_count_propagates (s : ServiceJS) (region : String)
    (h1 : s.count = JsNum.nan)
    (h2 : strToUpper s.name ∉ recognizedServiceTags) :
    (calculateAWSCostsJS [s] region).details =
      [⟨s.name, JsNum.nan, JsNum.num 25, JsNum.nan⟩] ∧
    (calculateAWSCostsJS [s] region).compute = JsNum.nan ∧
    (calculateAWSCostsJS [s] region).total = JsNum.nan := by
  simp only [recognizedServiceTags, List.mem_cons, List.not_mem_nil, or_false,
    not_or] at h2
  obtain ⟨g1, g2, g3, g4, g5, g6, g7, g8, g9, g10, g11, g12, g13, g14, g15, g16⟩ := h2
  refine ⟨?_, ?_, ?_⟩ <;>
    simp [calculateAWSCostsJS, processServiceJS, h1, g1, g2, g3, g4, g5, g6, g7,
      g8, g9, g10, g11, g12, g13, g14, g15, g16, jmul, jadd]

/-- Witness for the amended C4. -/
theorem C4_nan_count_propagates_witness :
    (⟨"FooBarService", "", .nan, none, none, none⟩ : ServiceJS).count = JsNum.nan ∧
    strToUpper "FooBarService" ∉ recognizedServiceTags ∧
    ((calculateAWSCostsJS [⟨"FooBarService", "", .nan, none, none, none⟩]
        "us-east-1").details =
      [⟨"FooBarService", JsNum.nan, JsNum.num 25, JsNum.nan⟩] ∧
     (calculateAWSCostsJS [⟨"FooBarService", "", .nan, none, none, none⟩]
        "us-east-1").compute = JsNum.nan ∧
     (calculateAWSCostsJS [⟨"FooBarService", "", .nan, none, none, none⟩]
        "us-east-1").total = JsNum.nan) :=
  ⟨rfl, by decide,
   C4_nan_count_propagates ⟨"FooBarService", "", .nan, none, none, none⟩
     "us-east-1" rfl (by decide)⟩

/-- Counterexample to claim C9 as stated: an error whose message is `"429"`
is classified as throttling by `generateDocumentContent` (so it is retried
with the 2000, 4000, 8000 ms backoff and then propagated), yet the batch
handler's status test checks only `"Too many requests"` and
`"ThrottlingException"`, so the document is recorded `"failed"`, not
`"rate_limited"`. -/
theorem C9_counterexample :
    isThrottlingError "429" = true ∧
    generateDocumentContent "pricing" (fun _ => Except.error "429") 0 =
      (Except.error "Failed to generate pricing document: 429",
       [2000, 4000, 8000]) ∧
    batchFailureStatus "Failed to generate pricing document: 429" = "failed" := by
  have ht : isThrottlingError "429" = true := by decide
  refine ⟨ht, ?_, by decide⟩
  have s0 := generateDocumentContent_throttle "pricing"
    (fun _ => Except.error "429") 0 "429" rfl ht (by decide)
  have s1 := generateDocumentContent_throttle "pricing"
    (fun _ => Except.error "429") 1 "429" rfl ht (by decide)
  have s2 := generateDocumentContent_throttle "pricing"
    (fun _ => Except.error "429") 2 "429" rfl ht (by decide)
  have s3 := generateDocumentContent_stop "pricing"
    (fun _ => Except.error "429") 3 "429" rfl (by decide)
  rw [s0, s1, s2, s3]
  refine Prod.ext ?_ ?_ <;> simp [baseDelay]

/-- Claim C9, amended: on a failed model call `generateDocumentContent`
retries if and only if the message is classified as throttling (contains
`"ThrottlingException"`, `"Too many requests"`, or `"429"`) and fewer than 3
retries have been used, sleeping `2000 * 2 ^ retryCount` ms before the
retry; otherwise it throws the wrapped failure.  The batch handler records
the failed document's status as `"rate_limited"` only when the propagated
message contains `"Too many requests"` or `"ThrottlingException"` (a
throttling error surfacing only the `"429"` indicator is recorded
`"failed"`), and continues with the remaining document types. -/
theorem C9_retry_and_batch_status (documentType msg : String)
    (call : Nat → Except String String) (retryCount : Nat)
    (outcome : String → Except String String) (docType : String)
    (rest : List String)
    (hc : call retryCount = Except.error msg) :
    (isThrottlingError msg = true → retryCount < maxRetries →
      generateDocumentContent documentType call retryCount =
        ((generateDocumentContent documentType call (retryCount + 1)).1,
         baseDelay * 2 ^ retryCount ::
           (generateDocumentContent documentType call (retryCount + 1)).2)) ∧
    (¬(isThrottlingError msg = true ∧ retryCount < maxRetries) →
      generateDocumentContent documentType call retryCount =
        (Except.error ("Failed to generate " ++ documentType ++ " document: " ++ msg),
         [])) ∧
    (batchFailureStatus msg =
      (if containsSubstr msg "Too many requests" ||
          containsSubstr msg "ThrottlingException" then "rate_limited"
       else "failed")) ∧
    ((docType = "pricing" ∨ docType = "solution" ∨ docType = "deployment" ∨
        docType = "monitoring") →
      outcome docType = Except.error msg →
      processDocumentTypes outcome (docType :: rest) =
        (docType, batchFailureStatus msg) :: processDocumentTypes outcome rest) := by
  refine ⟨fun ht hr => generateDocumentContent_throttle _ _ _ _ hc ht hr,
    fun hno => generateDocumentContent_stop _ _ _ _ hc hno, rfl, fun hd ho => ?_⟩
  rw [processDocumentTypes, if_pos hd, ho]

/-- Witness for the amended C9 with a pure-429 throttling failure. -/
theorem C9_retry_and_batch_status_witness :
    (fun _ : Nat => (Except.error "429" : Except String String)) 0 =
      Except.error "429" ∧
    ((isThrottlingError "429" = true → 0 < maxRetries →
      generateDocumentContent "pricing"
          (fun _ => (Except.error "429" : Except String String)) 0 =
        ((generateDocumentContent "pricing"
            (fun _ => (Except.error "429" : Except String String)) (0 + 1)).1,
         baseDelay * 2 ^ 0 ::
           (generateDocumentContent "pricing"
             (fun _ => (Except.error "429" : Except String String)) (0 + 1)).2)) ∧
    (¬(isThrottlingError "429" = true ∧ 0 < maxRetries) →
      generateDocumentContent "pricing"
          (fun _ => (Except.error "429" : Except String String)) 0 =
        (Except.error ("Failed to generate " ++ "pricing" ++ " document: " ++ "429"),
         [])) ∧
    (batchFailureStatus "429" =
      (if containsSubstr "429" "Too many requests" ||
          containsSubstr "429" "ThrottlingException" then "rate_limited"
       else "failed")) ∧
    (("pricing" = "pricing" ∨ "pricing" = "solution" ∨ "pricing" = "deployment" ∨
        "pricing" = "monitoring") →
      (fun _ : String => (Except.error "429" : Except String String)) "pricing" =
        Except.error "429" →
      processDocumentTypes (fun _ => (Except.error "429" : Except String String))
          ("pricing" :: []) =
        ("pricing", batchFailureStatus "429") ::
          processDocumentTypes
            (fun _ => (Except.error "429" : Except String String)) [])) :=
  ⟨rfl, C9_retry_and_batch_status "pricing" "429"
    (fun _ => (Except.error "429" : Except String String)) 0
    (fun _ => (Except.error "429" : Except String String)) "pricing" [] rfl⟩

theorem processService_preserves_sum (c : CostBreakdown) (s : AWSService)
    (h : bucketSum c = detailsTotal c) :
    bucketSum (processService c s) = detailsTotal (processService c s) := by
  unfold bucketSum detailsTotal at h ⊢
  by_cases h1 : strToUpper s.name = "EC2"
  · by_cases h1b : jsTruthy s.storage_size = true <;>
      simp [processService, h1, h1b] <;> linarith
  · by_cases h2 : strToUpper s.name = "RDS"
    · simp [processService, h1, h2]; linarith
    · by_cases h3 : strToUpper s.name = "S3"
      · simp [processService, h1, h2, h3]; linarith
      · by_cases h4 : strToUpper s.name = "ALB" ∨
            strToUpper s.name = "APPLICATION LOAD BALANCER"
        · simp [processService, h1, h2, h3, h4]; linarith
        · by_cases h5 : strToUpper s.name = "CLOUDFRONT"
          · simp [processService, h1, h2, h3, h4, h5]; linarith
          · by_cases h6 : strToUpper s.name = "WAF" ∨ strToUpper s.name = "AWS WAF"
            · simp [processService, h1, h2, h3, h4, h5, h6]; linarith
            · by_cases h7 : strToUpper s.name = "ECS" ∨
                  strToUpper s.name = "ELASTIC CONTAINER SERVICE"
              · simp [processService, h1, h2, h3, h4, h5, h6, h7]; linarith
              · by_cases h8 : strToUpper s.name = "ELASTICACHE"
                · simp [processService, h1, h2, h3, h4, h5, h6, h7, h8]; linarith
                · by_cases h9 : strToUpper s.name = "CLOUDWATCH"
                  · simp [processService, h1, h2, h3, h4, h5, h6, h7, h8, h9]
                    linarith
                  · by_cases h10 : strToUpper s.name = "CLOUDTRAIL"
                    · simp [processService, h1, h2, h3, h4, h5, h6, h7, h8, h9, h10]
                      linarith
                    · by_cases h11 : strToUpper s.name = "SNS" ∨
                          strToUpper s.name = "SIMPLE NOTIFICATION SERVICE"
                      · simp [processService, h1, h2, h3, h4, h5, h6, h7, h8, h9,
                          h10, h11]
                        linarith
                      · by_cases h12 : strToUpper s.name = "NAT GATEWAY"
                        · simp [processService, h1, h2, h3, h4, h5, h6, h7, h8, h9,
                            h10, h11, h12]
                          linarith
                        · simp [processService, h1, h2, h3, h4, h5, h6, h7, h8, h9,
                            h10, h11, h12]
                          linarith

theorem foldl_processService_preserves_sum (l : List AWSService) :
    ∀ c : CostBreakdown, bucketSum c = detailsTotal c →
      bucketSum (l.foldl processService c) = detailsTotal (l.foldl processService c) := by
  induction l with
  | nil => intro c h; simpa using h
  | cons s rest ih =>
    intro c h
    simpa using ih (processService c s) (processService_preserves_sum c s h)

/-- Claim C10: for every input, the sum of `total_cost` over the returned
line items equals the breakdown's `total` — every line's cost lands in
exactly one bucket with the same amount and nothing else feeds the
buckets. -/
theorem C10_details_sum_to_total (a : ArchitectureAnalysisResult) (region : String) :
    ((calculateAWSCosts a region).details.map LineItem.total_cost).sum =
      (calculateAWSCosts a region).total := by
  have h0 : bucketSum
        { compute := 0, storage := 0, network := 0, database := 0,
          total := 0, details := [] } =
      detailsTotal
        { compute := 0, storage := 0, network := 0, database := 0,
          total := 0, details := [] } := by
    simp [bucketSum, detailsTotal]
  have hfold := foldl_processService_preserves_sum a.services _ h0
  simp only [calculateAWSCosts]
  simpa [bucketSum, detailsTotal] using hfold.symm
